import Mathlib

/-!
EaseView screen overlay: formal model

A shallow embedding of the core of screen_overlay.py (EaseView):
the colour-density transform, the settings store (load / migrate /
validate / set), the recent-colour insertion, the overlay lifecycle
manager create operation, and the schedule loop per-iteration decision.

Python dictionaries are modelled as association lists of JSON-like
values, floats as exact rationals (every constant appearing in the
program and in the properties below is an exact decimal, on which
rational arithmetic agrees with the source float arithmetic), and
try/except blocks as Option-valued matches.
-/

namespace EaseView

/-- JSON-like runtime values held in the settings dictionaries
(Python numbers are modelled as exact rationals). -/
inductive JVal where
  | null : JVal
  | bool (b : Bool) : JVal
  | num (q : ℚ) : JVal
  | str (s : String) : JVal
  | arr (l : List JVal) : JVal
  | obj (l : List (String × JVal)) : JVal

/-- A Python dict with string keys: an association list whose keys
are unique by construction of the operations below, in insertion
order as in Python 3.7+. -/
abbrev Dict := List (String × JVal)

/-- Python dict lookup, d.get(k) and d[k]: the binding of k. -/
def dget (d : Dict) (k : String) : Option JVal :=
  match d with
  | [] => none
  | (k', v) :: rest => if k' = k then some v else dget rest k

/-- Python dict assignment d[k] = v: replace the binding of k in
place when present, otherwise append it (dict insertion order). -/
def dset (d : Dict) (k : String) (v : JVal) : Dict :=
  match d with
  | [] => [(k, v)]
  | (k', v') :: rest => if k' = k then (k, v) :: rest else (k', v') :: dset rest k v

/-- Python d.setdefault(k, v): insert k with value v only when k is
absent. -/
def dsetdefault (d : Dict) (k : String) (v : JVal) : Dict :=
  match dget d k with
  | some _ => d
  | none => d ++ [(k, v)]

/-- Python truthiness of a JSON value (bool(x) and bare if x). -/
def jTruthy : JVal → Bool
  | .null => false
  | .bool b => b
  | .num q => !(q == 0)
  | .str s => !(s == "")
  | .arr l => !l.isEmpty
  | .obj l => !l.isEmpty

/-- Python isinstance(x, (int, float)) plus conversion by float(x);
a Python bool is a subclass of int, so booleans pass the check and
convert to 0.0 / 1.0. -/
def jAsNum : JVal → Option ℚ
  | .num q => some q
  | .bool b => some (if b then 1 else 0)
  | _ => none

/-- Extract a Python str; any other runtime type is a type error at
the use sites modelled here. -/
def jStr : JVal → Option String
  | .str s => some s
  | _ => none

/-! ## Colour-density transform (OverlayManager._apply_density) -/

/-- ASCII whitespace stripped by int(s, 16) in Python. -/
def isPyWhitespace (c : Char) : Bool :=
  c = ' ' ∨ c = '\t' ∨ c = '\n' ∨ c = '\r' ∨ c = '\x0b' ∨ c = '\x0c'

/-- Hexadecimal digit test, both letter cases. -/
def isHexDigitChar (c : Char) : Bool :=
  ('0' ≤ c ∧ c ≤ '9') ∨ ('a' ≤ c ∧ c ≤ 'f') ∨ ('A' ≤ c ∧ c ≤ 'F')

/-- Numeric value of a hexadecimal digit. -/
def hexVal (c : Char) : Nat :=
  if '0' ≤ c ∧ c ≤ '9' then c.toNat - 48
  else if 'a' ≤ c ∧ c ≤ 'f' then c.toNat - 87
  else if 'A' ≤ c ∧ c ≤ 'F' then c.toNat - 55
  else 0

/-- The digits part of int(s, 16): a nonempty run of hex digits. -/
def parseHexDigits : List Char → Option Nat
  | [] => none
  | l => if l.all isHexDigitChar then some (l.foldl (fun acc c => 16 * acc + hexVal c) 0) else none

/-- Python int(s, 16): optional surrounding whitespace, optional
sign, then hexadecimal digits; ValueError is none.  (The 0x prefix
and the digit-group underscores Python also accepts cannot occur in
the two-character slices this program feeds to int, so they are not
modelled.) -/
def pyIntHex (s : String) : Option Int :=
  let t := ((s.data.dropWhile isPyWhitespace).reverse.dropWhile isPyWhitespace).reverse
  match t with
  | '+' :: rest => (parseHexDigits rest).map (fun n => Int.ofNat n)
  | '-' :: rest => (parseHexDigits rest).map (fun n => -(Int.ofNat n))
  | rest => (parseHexDigits rest).map (fun n => Int.ofNat n)

/-- Python slice l[a:b] on strings, clamping and never failing. -/
def pySlice (l : List Char) (a b : Nat) : List Char :=
  (l.drop a).take (b - a)

/-- Python int(x) on an exact rational: truncation toward zero. -/
def pyTrunc (q : ℚ) : Int := q.num.tdiv q.den

/-- The channel extraction of _apply_density: lstrip of leading hash
characters followed by int over the slices [0:2], [2:4] and [4:6];
none is the ValueError path taken to the except branch. -/
def parseRGB (hexColor : String) : Option (Int × Int × Int) :=
  let t := hexColor.data.dropWhile (· = '#')
  match pyIntHex ⟨pySlice t 0 2⟩, pyIntHex ⟨pySlice t 2 4⟩, pyIntHex ⟨pySlice t 4 6⟩ with
  | some r, some g, some b => some (r, g, b)
  | _, _, _ => none

/-- Lower-case hexadecimal digit, as produced by the 02x format
spec for each half-byte. -/
def hexDigitChar (n : Nat) : Char :=
  if n < 10 then Char.ofNat (48 + n) else Char.ofNat (87 + n % 16)

/-- The two-digit 02x format spec applied to a clamped channel value. -/
def toHex2 (n : Int) : List Char :=
  [hexDigitChar (n.toNat / 16 % 16), hexDigitChar (n.toNat % 16)]

/-- The channel clamp max(0, min(255, v)). -/
def clampChannel (v : Int) : Int := max 0 (min 255 v)

/-- OverlayManager._apply_density(hex_color, density): parse the
colour; blend toward white when density < 1, push away from the grey
average when density ≥ 1; clamp channels; re-format in lower-case
hex.  The source rebinds its hex_color variable to the lstrip result
inside the try before the int calls can raise, so the except branch
returns the stripped string, not the original argument. -/
def applyDensity (hexColor : String) (density : ℚ) : String :=
  match parseRGB hexColor with
  | none => ⟨hexColor.data.dropWhile (· = '#')⟩
  | some (r, g, b) =>
    let rgb :=
      if density < 1 then
        let factor := density
        (pyTrunc ((r : ℚ) * factor + 255 * (1 - factor)),
         pyTrunc ((g : ℚ) * factor + 255 * (1 - factor)),
         pyTrunc ((b : ℚ) * factor + 255 * (1 - factor)))
      else
        let factor := (density - 1) * 2
        let grey := (r + g + b).fdiv 3
        (pyTrunc ((r : ℚ) + ((r - grey : Int) : ℚ) * factor),
         pyTrunc ((g : ℚ) + ((g - grey : Int) : ℚ) * factor),
         pyTrunc ((b : ℚ) + ((b - grey : Int) : ℚ) * factor))
    ⟨'#' :: (toHex2 (clampChannel rgb.1) ++ toHex2 (clampChannel rgb.2.1) ++ toHex2 (clampChannel rgb.2.2))⟩

/-- A hash-prefixed six-hex-digit colour literal, either letter
case: the #RRGGBB shape named by the specification. -/
def isHexColor6 (s : String) : Bool :=
  match s.data with
  | '#' :: rest => rest.length == 6 && rest.all isHexDigitChar
  | _ => false

/-- A colour string in the canonical form of the transform itself:
its channels parse, lie in 0..255, and re-formatting them reproduces
the string exactly.  Equivalently: a hash followed by six lower-case
hexadecimal digits. -/
def isCanonicalHexColor (s : String) : Bool :=
  match parseRGB s with
  | some (r, g, b) =>
    decide (0 ≤ r ∧ r ≤ 255 ∧ 0 ≤ g ∧ g ≤ 255 ∧ 0 ≤ b ∧ b ≤ 255) &&
      (String.mk ('#' :: (toHex2 r ++ toHex2 g ++ toHex2 b)) == s)
  | none => false

/-! ## Settings store (SettingsManager) -/

/-- The current settings schema version (SETTINGS_VERSION = 5); kept
rational because the version read from a file is an arbitrary JSON
number. -/
def SETTINGS_VERSION : ℚ := 5

/-- The window_geometry entry of DEFAULT_SETTINGS. -/
def defaultWindowGeometry : Dict :=
  [("x", .null), ("y", .null), ("width", .num 480), ("height", .num 750)]

/-- The hotkeys entry of DEFAULT_SETTINGS. -/
def defaultHotkeys : Dict :=
  [("toggle", .str "Control+Shift+O"),
   ("increase_opacity", .str "Control+Shift+Up"),
   ("decrease_opacity", .str "Control+Shift+Down"),
   ("increase_density", .str "Control+Shift+Right"),
   ("decrease_density", .str "Control+Shift+Left")]

/-- The schedule location entry of DEFAULT_SETTINGS (Edinburgh). -/
def defaultLocation : Dict :=
  [("latitude", .num (mkRat 559533 10000)),
   ("longitude", .num (-(mkRat 31883 10000))),
   ("timezone", .str "Europe/London")]

/-- The schedule entry of DEFAULT_SETTINGS. -/
def defaultSchedule : Dict :=
  [("enabled", .bool false),
   ("start_time", .str "09:00"),
   ("end_time", .str "17:00"),
   ("use_sunset", .bool false),
   ("location", .obj defaultLocation)]

/-- The accessibility entry of DEFAULT_SETTINGS. -/
def defaultAccessibility : Dict :=
  [("high_contrast", .bool false), ("font_scale", .num 1)]

/-- SettingsManager.DEFAULT_SETTINGS, in source order. -/
def defaultSettings : Dict :=
  [("version", .num 5),
   ("preset_name", .null),
   ("custom_color", .null),
   ("opacity", .num (mkRat 3 10)),
   ("density", .num 1),
   ("overlay_enabled", .bool false),
   ("recent_colors", .arr []),
   ("window_geometry", .obj defaultWindowGeometry),
   ("hotkeys", .obj defaultHotkeys),
   ("auto_startup", .bool false),
   ("start_minimized", .bool false),
   ("enable_notifications", .bool true),
   ("enable_fade", .bool true),
   ("schedule", .obj defaultSchedule),
   ("accessibility", .obj defaultAccessibility),
   ("current_profile", .null),
   ("auto_backup", .bool true),
   ("backup_interval_hours", .num 24)]

/-- The from_version < 5 migration step.  The nested setdefault
calls on the schedule entry require that value to be a dict; on
any other runtime type Python raises an AttributeError, modelled as
none (caught by the generic handler in load). -/
def migrateV5Block (s : Dict) : Option Dict :=
  let s := dsetdefault s "recent_colors" (.arr [])
  let s := dsetdefault s "start_minimized" (.bool false)
  let s := dsetdefault s "enable_notifications" (.bool true)
  let s := dsetdefault s "enable_fade" (.bool true)
  let afterSchedule : Option Dict :=
    match dget s "schedule" with
    | none => some s
    | some (.obj sch) =>
        let sch := dsetdefault sch "use_sunset" (.bool false)
        let sch := dsetdefault sch "location" (.obj defaultLocation)
        some (dset s "schedule" (.obj sch))
    | some _ => none
  afterSchedule.map (fun s =>
    let s := dsetdefault s "auto_backup" (.bool true)
    dsetdefault s "backup_interval_hours" (.num 24))

/-- SettingsManager._migrate_settings(settings, from_version):
version-ordered additive transformations, ending with an
unconditional stamp of the current schema version.  none is the
exception path (propagated to the caller, load). -/
def migrateSettings (s : Dict) (fromVersion : ℚ) : Option Dict :=
  let s :=
    if fromVersion = 1 then
      let s :=
        match dget s "last_color" with
        | some v => if jTruthy v then dset s "custom_color" v else s
        | none => s
      dset s "preset_name" .null
    else s
  let s := if fromVersion < 3 then dset s "density" (.num 1) else s
  let s :=
    if fromVersion < 4 then
      let s := dsetdefault s "window_geometry" (.obj defaultWindowGeometry)
      let s := dsetdefault s "hotkeys" (.obj defaultHotkeys)
      let s := dsetdefault s "auto_startup" (.bool false)
      let s := dsetdefault s "schedule" (.obj defaultSchedule)
      let s := dsetdefault s "accessibility" (.obj defaultAccessibility)
      dsetdefault s "current_profile" .null
    else s
  (if fromVersion < 5 then migrateV5Block s else some s).map
    (fun s => dset s "version" (.num SETTINGS_VERSION))

/-- SettingsManager._validate_and_apply(loaded): field-wise
validation writing into the live settings dict (self.settings).
Only opacity, density, preset_name, custom_color and
overlay_enabled are ever written; every other key of the loaded
record is left unread. -/
def validateAndApply (settings loaded : Dict) : Dict :=
  let settings :=
    match jAsNum ((dget loaded "opacity").getD (.num (mkRat 3 10))) with
    | some q => dset settings "opacity" (.num (max (mkRat 1 10) (min (mkRat 6 10) q)))
    | none => settings
  let settings :=
    match jAsNum ((dget loaded "density").getD (.num 1)) with
    | some q => dset settings "density" (.num (max (mkRat 1 2) (min (mkRat 3 2) q)))
    | none => settings
  let settings :=
    match (dget loaded "preset_name").getD .null with
    | .null => dset settings "preset_name" .null
    | .str s => dset settings "preset_name" (.str s)
    | _ => settings
  let settings :=
    match (dget loaded "custom_color").getD .null with
    | .null => dset settings "custom_color" .null
    | .str s => if s.startsWith "#" then dset settings "custom_color" (.str s) else settings
    | _ => settings
  dset settings "overlay_enabled"
    (.bool (jTruthy ((dget loaded "overlay_enabled").getD (.bool false))))

/-- SettingsManager.set(key, value): unconditional in-memory
assignment (the pending-write flag and the disk flush carry no
settings content and are not modelled). -/
def settingsSet (settings : Dict) (key : String) (value : JVal) : Dict :=
  dset settings key value

/-- The parse outcome of the bytes in a settings file: JSON that
failed to decode, or a decoded record. -/
inductive FileContent where
  | malformed (raw : String) : FileContent
  | parsed (record : Dict) : FileContent

/-- The two disk paths the store touches: the settings file and its
.backup sibling (rename modelled as an atomic overwrite of the
backup path). -/
structure FileSystem where
  settingsFile : Option FileContent
  backupFile : Option FileContent

/-- The store state: the disk and the in-memory self.settings. -/
structure StoreState where
  fs : FileSystem
  settings : Dict

/-- SettingsManager._backup_and_reset: rename the settings file to
the .backup path when the settings file exists, then reset the
in-memory settings to the defaults.  The program runs on Windows
(the click-through calls go through ctypes.windll), where os.rename
raises FileExistsError when the destination exists; the surrounding
except logs and swallows that, leaving the corrupted settings file
and the prior backup in place.  The rename therefore succeeds only
when no prior backup exists. -/
def backupAndReset (st : StoreState) : StoreState :=
  let fs :=
    match st.fs.settingsFile with
    | some c =>
      match st.fs.backupFile with
      | none => { settingsFile := none, backupFile := some c : FileSystem }
      | some _ => st.fs
    | none => st.fs
  { fs := fs, settings := defaultSettings }

/-- SettingsManager.load: absent file keeps the defaults; a JSON
decode error triggers backup-and-reset; otherwise migrate when the
file version is below current, then validate-and-apply.  Every
exception path is caught inside load, so the result is always an
ordinary state, never a raised error. -/
def load (st : StoreState) : StoreState :=
  match st.fs.settingsFile with
  | none => st
  | some (.malformed _) => backupAndReset st
  | some (.parsed loaded) =>
    match jAsNum ((dget loaded "version").getD (.num 1)) with
    | none => st
    | some fileVersion =>
      match (if fileVersion < SETTINGS_VERSION then migrateSettings loaded fileVersion else some loaded) with
      | none => st
      | some migrated => { st with settings := validateAndApply st.settings migrated }

/-! ## Recent colours (EaseViewApp.choose_custom_color) -/

/-- The recent-colour insertion of choose_custom_color: a colour
already present is not re-inserted; a new colour is inserted at the
front and the list sliced to its first ten entries. -/
def insertRecentColor (recent : List String) (color : String) : List String :=
  if color ∈ recent then recent else (color :: recent).take 10

/-! ## Overlay lifecycle manager (OverlayManager) -/

/-- One monitor rectangle as returned by the monitor enumerator. -/
structure Monitor where
  x : Int
  y : Int
  width : Int
  height : Int
deriving DecidableEq

/-- What the platform does with one monitor surface during create:
the Toplevel construction raises, the click-through style call
fails, or everything succeeds. -/
inductive SurfaceOutcome where
  | creationError : SurfaceOutcome
  | clickThroughFailed : SurfaceOutcome
  | ok : SurfaceOutcome
deriving DecidableEq

/-- The OverlayManager fields that create, show, hide and destroy
read and write. -/
structure OverlayState where
  overlayWindows : List Monitor
  isActive : Bool
  monitoring : Bool
  currentColor : Option String
  currentOpacity : ℚ
  currentDensity : ℚ

/-- OverlayManager.destroy: stop the watchdog, drop every surface,
return to the inactive state. -/
def overlayDestroy (st : OverlayState) : OverlayState :=
  { st with monitoring := false, overlayWindows := [], isActive := false }

/-- OverlayManager.create(color, opacity, density): remember the
requested colour/opacity/density, destroy any existing surfaces,
then build one surface per monitor; a surface whose click-through
call fails is destroyed and skipped, a surface whose construction
raises is skipped.  Zero surviving surfaces is a failure; otherwise
the manager becomes active and the watchdog starts.  The outcome of
the platform calls for each monitor is the environment parameter
attempt. -/
def overlayCreate (st : OverlayState) (color : String) (opacity density : ℚ)
    (monitors : List Monitor) (attempt : Monitor → SurfaceOutcome) : Bool × OverlayState :=
  let st := { st with currentColor := some color, currentOpacity := opacity,
                      currentDensity := density }
  let st := overlayDestroy st
  if monitors.isEmpty then (false, st)
  else
    let survivors := monitors.filter (fun m => attempt m = .ok)
    if survivors.isEmpty then (false, st)
    else (true, { st with overlayWindows := survivors, isActive := true, monitoring := true })

/-! ## Schedule engine (ScheduleManager) -/

/-- datetime.time.fromisoformat on the stored HH:MM literals:
minutes past midnight, or none for the ValueError path.  (Longer
ISO forms are not produced by the configuration dialog and are not
modelled.) -/
def parseTimeHHMM (s : String) : Option Nat :=
  match s.data with
  | [h1, h2, ':', m1, m2] =>
    if ('0' ≤ h1 ∧ h1 ≤ '9') ∧ ('0' ≤ h2 ∧ h2 ≤ '9') ∧ ('0' ≤ m1 ∧ m1 ≤ '9') ∧ ('0' ≤ m2 ∧ m2 ≤ '9') then
      let hh := 10 * (h1.toNat - 48) + (h2.toNat - 48)
      let mm := 10 * (m1.toNat - 48) + (m2.toNat - 48)
      if hh < 24 ∧ mm < 60 then some (60 * hh + mm) else none
    else none
  | _ => none

/-- What one iteration of the schedule loop asks the overlay to do. -/
inductive ScheduleAction where
  | showOverlay : ScheduleAction
  | hideOverlay : ScheduleAction
  | keep : ScheduleAction
deriving DecidableEq

/-- The result of one iteration of schedule_loop: the loop stops
because scheduling was disabled, the iteration dies in the except
branch, or it polls and requests an action. -/
inductive ScheduleStep where
  | stopped : ScheduleStep
  | errored : ScheduleStep
  | poll (a : ScheduleAction) : ScheduleStep
deriving DecidableEq

/-- One iteration of the loop in ScheduleManager.start: re-read the
schedule dict; stop when disabled; parse start_time and end_time
(their failure is the except path); show when now lies inside the
window, the overlay has a colour and is not active; hide when now
lies outside the window and the overlay is active.  nowSec is the
wall-clock time in seconds past midnight. -/
def scheduleIteration (schedule : Dict) (nowSec : Nat)
    (isActive hasColor : Bool) : ScheduleStep :=
  if ¬ jTruthy ((dget schedule "enabled").getD (.bool false)) then .stopped
  else
    match jStr ((dget schedule "start_time").getD (.str "09:00")),
          jStr ((dget schedule "end_time").getD (.str "17:00")) with
    | some ss, some es =>
      match parseTimeHHMM ss, parseTimeHHMM es with
      | some startT, some endT =>
        .poll (if 60 * startT ≤ nowSec ∧ nowSec ≤ 60 * endT then
                 (if ¬ isActive ∧ hasColor then .showOverlay else .keep)
               else
                 (if isActive then .hideOverlay else .keep))
      | _, _ => .errored
    | _, _ => .errored

end EaseView

namespace EaseView

/-! ## Dictionary lemmas -/

/-- Reading the key just written returns the written value. -/
theorem dget_dset_self (d : Dict) (k : String) (v : JVal) :
    dget (dset d k v) k = some v := by
  induction d with
  | nil => simp [dget, dset]
  | cons p rest ih =>
    obtain ⟨k', v'⟩ := p
    by_cases h : k' = k
    · simp [dget, dset, h]
    · simp [dget, dset, h, ih]

/-- Writing one key leaves every other key unchanged. -/
theorem dget_dset_ne (d : Dict) (k k' : String) (v : JVal) (h : k' ≠ k) :
    dget (dset d k' v) k = dget d k := by
  induction d with
  | nil => simp [dget, dset, h]
  | cons p rest ih =>
    obtain ⟨k0, v0⟩ := p
    by_cases h0 : k0 = k'
    · subst h0
      simp [dget, dset, h]
    · simp [dget, dset, h0, ih]

/-- Re-writing the same key with the same value is a no-op on the
already-written dict. -/
theorem dset_dset_same (d : Dict) (k : String) (v : JVal) :
    dset (dset d k v) k v = dset d k v := by
  induction d with
  | nil => simp [dset]
  | cons p rest ih =>
    obtain ⟨k0, v0⟩ := p
    by_cases h0 : k0 = k
    · simp [dset, h0]
    · simp [dset, h0, ih]

/-- Truncation toward zero is the identity on integers. -/
theorem pyTrunc_intCast (n : Int) : pyTrunc ((n : ℚ)) = n := by
  unfold pyTrunc
  rw [Rat.num_intCast, Rat.den_intCast]
  exact Int.tdiv_one n

/-- The channel clamp is the identity on channel values already in
range. -/
theorem clampChannel_of_mem (v : Int) (h0 : 0 ≤ v) (h255 : v ≤ 255) :
    clampChannel v = v := by
  unfold clampChannel
  rw [min_eq_right h255, max_eq_right h0]

end EaseView

namespace EaseView

/-! ## Claim theorems -/

/-- Claim C2 (code bug evidence): the schedule loop bases its
show/hide decision on the fixed start_time / end_time even when
use_sunset is true.  Two schedule records that differ only in
start_time, both with use_sunset set, produce different decisions at
10:00 with the overlay configured but hidden: the loop follows the
fixed window and never reads use_sunset, contradicting the
documented meaning of the flag. -/
theorem scheduleIteration_uses_fixed_times_despite_sunset :
    dget [("enabled", .bool true), ("start_time", .str "09:00"), ("end_time", .str "17:00"),
          ("use_sunset", .bool true), ("location", .obj defaultLocation)] "use_sunset"
        = some (.bool true)
    ∧ dget [("enabled", .bool true), ("start_time", .str "11:00"), ("end_time", .str "17:00"),
          ("use_sunset", .bool true), ("location", .obj defaultLocation)] "use_sunset"
        = some (.bool true)
    ∧ scheduleIteration
        [("enabled", .bool true), ("start_time", .str "09:00"), ("end_time", .str "17:00"),
         ("use_sunset", .bool true), ("location", .obj defaultLocation)]
        36000 false true = .poll .showOverlay
    ∧ scheduleIteration
        [("enabled", .bool true), ("start_time", .str "11:00"), ("end_time", .str "17:00"),
         ("use_sunset", .bool true), ("location", .obj defaultLocation)]
        36000 false true = .poll .keep := by
  refine ⟨by with_unfolding_all rfl, by with_unfolding_all rfl,
          by with_unfolding_all rfl, by with_unfolding_all rfl⟩

/-- Claim C3 (code bug evidence): SettingsManager.set stores the
given value verbatim, with no clamping: setting opacity to 2.0
leaves 2.0 in the store although 2.0 lies outside [0.10, 0.60], and
setting density to 2.0 leaves 2.0 although it lies outside
[0.50, 1.50].  The repository test test_settings_validation asserts
the clamped behaviour, so the claim states the intent and the code
is the slip. -/
theorem settingsSet_does_not_clamp :
    dget (settingsSet defaultSettings "opacity" (.num 2)) "opacity" = some (.num 2)
    ∧ ¬ ((2 : ℚ) ≤ mkRat 6 10)
    ∧ dget (settingsSet defaultSettings "density" (.num 2)) "density" = some (.num 2)
    ∧ ¬ ((2 : ℚ) ≤ mkRat 3 2) := by
  refine ⟨by with_unfolding_all rfl, by with_unfolding_all decide,
          by with_unfolding_all rfl, by with_unfolding_all decide⟩

/-- Claim C4 counterexample: the density transform applied to the
colour 000000 with density 0.5 does not return 808080.  Each channel
is computed as int(0 * 0.5 + 255 * 0.5) = int(127.5) = 127 = 0x7f,
because int() truncates rather than rounds. -/
theorem applyDensity_black_half_ne_808080 :
    applyDensity "#000000" (mkRat 1 2) ≠ "#808080" := by
  with_unfolding_all decide

/-- Claim C4 (amended): the density transform applied to #000000
with density 0.5 returns #7f7f7f: each channel is blended 50 percent
toward white and then truncated to the integer 127. -/
theorem applyDensity_black_half :
    applyDensity "#000000" (mkRat 1 2) = "#7f7f7f" := by
  with_unfolding_all rfl

/-- Claim C7 counterexample: when a prior .backup file already
exists, load on a malformed settings file does not rename it: on
Windows os.rename raises FileExistsError, _backup_and_reset swallows
it, and the corrupted file and the old backup both stay in place
(the in-memory settings are still reset to the defaults). -/
theorem load_malformed_with_prior_backup_keeps_file :
    (load ⟨⟨some (.malformed "not json"), some (.malformed "old backup")⟩,
        defaultSettings⟩).fs.settingsFile = some (.malformed "not json")
    ∧ (load ⟨⟨some (.malformed "not json"), some (.malformed "old backup")⟩,
        defaultSettings⟩).fs.backupFile = some (.malformed "old backup")
    ∧ (load ⟨⟨some (.malformed "not json"), some (.malformed "old backup")⟩,
        defaultSettings⟩).settings = defaultSettings :=
  ⟨rfl, rfl, rfl⟩

/-- Claim C7 (amended): on a structurally malformed settings file,
load always resets the in-memory settings to the hard-coded defaults
and returns normally (the decode error never escapes to the caller);
the corrupted file is renamed onto the .backup path only when no
prior backup exists — with a prior backup the Windows rename fails,
the failure is logged and swallowed, and the corrupted file stays in
place. -/
theorem load_malformed_backup_reset_cases :
    (∀ (raw : String) (settings : Dict),
        load ⟨⟨some (.malformed raw), none⟩, settings⟩
          = ⟨⟨none, some (.malformed raw)⟩, defaultSettings⟩)
    ∧ (∀ (raw : String) (prior : FileContent) (settings : Dict),
        load ⟨⟨some (.malformed raw), some prior⟩, settings⟩
          = ⟨⟨some (.malformed raw), some prior⟩, defaultSettings⟩) :=
  ⟨fun _ _ => rfl, fun _ _ _ => rfl⟩

/-- Claim C10 counterexample, both failure modes of the claim: the
string FF0000 is not a hash-prefixed six-hex-digit colour, yet it is
parsed (lstrip removes nothing, the slices still read hex pairs) and
transformed instead of returned as-is; and the unparseable input
made of a hash and three digits comes back with its hash stripped,
not unchanged, because the source rebinds hex_color to the lstrip
result before the failing int call. -/
theorem applyDensity_transforms_unprefixed_input :
    (isHexColor6 "FF0000" = false ∧ applyDensity "FF0000" 1 ≠ "FF0000")
    ∧ applyDensity "#fff" 1 = "fff" ∧ "fff" ≠ "#fff" := by
  refine ⟨⟨by with_unfolding_all rfl, by with_unfolding_all decide⟩,
    by with_unfolding_all rfl, by decide⟩

/-- Claim C10 (amended): the density transform is total — every
failure is caught — and on the parse-failure path it returns, for
every density value, the input with its leading hash characters
stripped (the source rebinds hex_color to the lstrip result inside
the try before the int calls can raise, so the except branch returns
the stripped string, which equals the input exactly when the input
has no leading hash). -/
theorem applyDensity_total_fallback (s : String) (d : ℚ)
    (h : parseRGB s = none) :
    applyDensity s d = ⟨s.data.dropWhile (· = '#')⟩ := by
  unfold applyDensity
  rw [h]

/-- Witness for the amended claim C10 at a concrete unparseable
input: the three-digit colour written as a hash and fff fails
channel extraction and comes back as fff, its hash stripped. -/
theorem applyDensity_total_fallback_witness :
    parseRGB "#fff" = none ∧ applyDensity "#fff" (mkRat 1 2) = "fff" :=
  ⟨by with_unfolding_all rfl,
   (applyDensity_total_fallback "#fff" (mkRat 1 2) (by with_unfolding_all rfl)).trans
     (by with_unfolding_all rfl)⟩

end EaseView

namespace EaseView

/-- Helper for claim C1: _validate_and_apply writes only the five
keys opacity, density, preset_name, custom_color and
overlay_enabled; every other key of the live settings keeps its
prior value whatever the loaded record holds. -/
theorem validateAndApply_preserves (s l : Dict) (k : String)
    (h1 : k ≠ "opacity") (h2 : k ≠ "density") (h3 : k ≠ "preset_name")
    (h4 : k ≠ "custom_color") (h5 : k ≠ "overlay_enabled") :
    dget (validateAndApply s l) k = dget s k := by
  have e1 := fun d v => dget_dset_ne d k "opacity" v (Ne.symm h1)
  have e2 := fun d v => dget_dset_ne d k "density" v (Ne.symm h2)
  have e3 := fun d v => dget_dset_ne d k "preset_name" v (Ne.symm h3)
  have e4 := fun d v => dget_dset_ne d k "custom_color" v (Ne.symm h4)
  have e5 := fun d v => dget_dset_ne d k "overlay_enabled" v (Ne.symm h5)
  unfold validateAndApply
  repeat' split
  all_goals simp only [e1, e2, e3, e4, e5]
end EaseView

namespace EaseView

/-- Claim C1 (code bug evidence): _validate_and_apply never applies
recent_colors, window_geometry, hotkeys or schedule — those keys of
the live settings always keep their prior values, whatever valid
values the loaded record holds; concretely, loading a record whose
recent_colors is the valid list [#ff0000] leaves the default empty
list in place.  The migration code fills exactly these keys in old
records, and the application restores geometry, hotkeys, schedule
and recent colours from the live settings at startup, so the claim
states the intent and the incomplete validator is the slip.  (The
claim is right that one malformed field never invalidates the rest:
each of the five handled fields is validated independently.) -/
theorem validateAndApply_drops_restorable_fields :
    (∀ (s l : Dict),
        dget (validateAndApply s l) "recent_colors" = dget s "recent_colors"
        ∧ dget (validateAndApply s l) "window_geometry" = dget s "window_geometry"
        ∧ dget (validateAndApply s l) "hotkeys" = dget s "hotkeys"
        ∧ dget (validateAndApply s l) "schedule" = dget s "schedule")
    ∧ dget (validateAndApply defaultSettings [("recent_colors", .arr [.str "#ff0000"])])
        "recent_colors" = some (.arr []) := by
  constructor
  · intro s l
    refine ⟨?_, ?_, ?_, ?_⟩ <;>
      exact validateAndApply_preserves s l _ (by decide) (by decide) (by decide)
        (by decide) (by decide)
  · with_unfolding_all rfl

/-- Claim C8: migration is idempotent and always stamps the current
schema version.  Whenever _migrate_settings(r, v) returns a record,
that record carries version = 5, and re-running the migration on it
from the current version returns it unchanged (every migration
branch is version-guarded off; only the version stamp is re-applied,
writing the value already present). -/
theorem migrateSettings_idempotent (r : Dict) (v : ℚ) (res : Dict)
    (h : migrateSettings r v = some res) :
    migrateSettings res SETTINGS_VERSION = some res
    ∧ dget res "version" = some (.num SETTINGS_VERSION) := by
  unfold migrateSettings at h
  rw [Option.map_eq_some'] at h
  obtain ⟨x, _, hres⟩ := h
  subst hres
  constructor
  · unfold migrateSettings SETTINGS_VERSION
    have c1 : ¬ ((5 : ℚ) = 1) := by norm_num
    have c3 : ¬ ((5 : ℚ) < 3) := by norm_num
    have c4 : ¬ ((5 : ℚ) < 4) := by norm_num
    have c5 : ¬ ((5 : ℚ) < 5) := by norm_num
    simp only [if_neg c1, if_neg c3, if_neg c4, if_neg c5, Option.map_some']
    exact congrArg some (dset_dset_same x "version" (.num 5))
  · exact dget_dset_self x "version" (.num SETTINGS_VERSION)

/-- Witness for claim C8 at a concrete record: the default settings
record migrated from version 1 is returned unchanged (every key is
already present with its default), so it is itself a migrated
record, and re-migrating it from the current version is the
identity with the version stamp in place. -/
theorem migrateSettings_idempotent_witness :
    migrateSettings defaultSettings SETTINGS_VERSION = some defaultSettings
    ∧ dget defaultSettings "version" = some (.num SETTINGS_VERSION) :=
  migrateSettings_idempotent defaultSettings 1 defaultSettings (by with_unfolding_all rfl)

/-- Claim C9: inserting a chosen colour into a duplicate-free recent
list of length at most ten yields a duplicate-free list of length at
most ten; a colour already present leaves the list untouched, and a
new colour goes to the front with the list sliced to ten entries. -/
theorem insertRecentColor_invariant (recent : List String) (c : String)
    (hlen : recent.length ≤ 10) (hnd : recent.Nodup) :
    (insertRecentColor recent c).length ≤ 10
    ∧ (insertRecentColor recent c).Nodup
    ∧ (c ∈ recent → insertRecentColor recent c = recent)
    ∧ (c ∉ recent → insertRecentColor recent c = (c :: recent).take 10) := by
  unfold insertRecentColor
  by_cases hc : c ∈ recent
  · simp [hc, hlen, hnd]
  · rw [if_neg hc]
    refine ⟨?_, ?_, fun hmem => absurd hmem hc, fun _ => rfl⟩
    · simp only [List.length_take]
      omega
    · exact List.Nodup.sublist (List.take_sublist 10 (c :: recent))
        (List.nodup_cons.mpr ⟨hc, hnd⟩)

/-- Witness for claim C9 at a concrete input: inserting #000000
into the single-element recent list [#ffffff]. -/
theorem insertRecentColor_invariant_witness :
    (insertRecentColor ["#ffffff"] "#000000").length ≤ 10
    ∧ (insertRecentColor ["#ffffff"] "#000000").Nodup
    ∧ ("#000000" ∈ ["#ffffff"] → insertRecentColor ["#ffffff"] "#000000" = ["#ffffff"])
    ∧ ("#000000" ∉ ["#ffffff"] →
        insertRecentColor ["#ffffff"] "#000000" = ("#000000" :: ["#ffffff"]).take 10) :=
  insertRecentColor_invariant ["#ffffff"] "#000000" (by decide) (by decide)

end EaseView

namespace EaseView

/-- Claim C5 counterexample: the transform at density 1.0 is not the
string identity on every valid RRGGBB colour: the valid upper-case colour
FF0000 comes back in lower case, because the 02x re-formatting
always emits lower-case digits. -/
theorem applyDensity_one_changes_letter_case :
    isHexColor6 "#FF0000" = true
    ∧ applyDensity "#FF0000" 1 = "#ff0000"
    ∧ "#ff0000" ≠ "#FF0000" := by
  refine ⟨by with_unfolding_all rfl, by with_unfolding_all rfl, by decide⟩

/-- Claim C5 (amended): at density exactly 1.0 the transform is the
identity on every colour string in its own canonical form (channels
parse into 0..255 and re-format to the same string — exactly the
colours written as a hash and six lower-case hex digits); on other
valid colours the channel values are preserved and only the letter
case is normalised. -/
theorem applyDensity_one_canonical_identity (s : String)
    (h : isCanonicalHexColor s = true) : applyDensity s 1 = s := by
  unfold isCanonicalHexColor at h
  cases hp : parseRGB s with
  | none => rw [hp] at h; exact absurd h (by simp)
  | some t =>
    obtain ⟨r, g, b⟩ := t
    rw [hp] at h
    simp only [Bool.and_eq_true, decide_eq_true_eq, beq_iff_eq] at h
    obtain ⟨⟨hr0, hr255, hg0, hg255, hb0, hb255⟩, hfmt⟩ := h
    unfold applyDensity
    rw [hp]
    have h1 : ¬ ((1 : ℚ) < 1) := lt_irrefl 1
    have hz : ((1 : ℚ) - 1) * 2 = 0 := by norm_num
    simp only [if_neg h1, hz, mul_zero, add_zero, pyTrunc_intCast]
    rw [clampChannel_of_mem r hr0 hr255, clampChannel_of_mem g hg0 hg255,
        clampChannel_of_mem b hb0 hb255]
    exact hfmt

/-- Witness for the amended claim C5 at a concrete canonical colour,
the default preset colour #ffd54f. -/
theorem applyDensity_one_canonical_identity_witness :
    isCanonicalHexColor "#ffd54f" = true ∧ applyDensity "#ffd54f" 1 = "#ffd54f" :=
  ⟨by with_unfolding_all rfl,
   applyDensity_one_canonical_identity "#ffd54f" (by with_unfolding_all rfl)⟩

/-- Claim C6: create keeps exactly the surfaces whose click-through
call succeeded (failed ones are destroyed and skipped), reports
success exactly when at least one surface survives, and on success
the manager is active with the watchdog started; on failure no
surface is retained and the manager stays inactive with the
watchdog stopped. -/
theorem overlayCreate_click_through_policy (st : OverlayState) (color : String)
    (opacity density : ℚ) (monitors : List Monitor) (attempt : Monitor → SurfaceOutcome) :
    (overlayCreate st color opacity density monitors attempt).2.overlayWindows
        = monitors.filter (fun m => attempt m = .ok)
    ∧ ((overlayCreate st color opacity density monitors attempt).1 = true
        ↔ monitors.filter (fun m => attempt m = .ok) ≠ [])
    ∧ (overlayCreate st color opacity density monitors attempt).2.isActive
        = (overlayCreate st color opacity density monitors attempt).1
    ∧ (overlayCreate st color opacity density monitors attempt).2.monitoring
        = (overlayCreate st color opacity density monitors attempt).1 := by
  unfold overlayCreate overlayDestroy
  by_cases hm : monitors.isEmpty
  · have hnil : monitors = [] := by simpa using hm
    subst hnil
    simp
  · by_cases hs : (monitors.filter (fun m => attempt m = .ok)).isEmpty
    · have hfil : monitors.filter (fun m => attempt m = .ok) = [] := by simpa using hs
      simp [hm, hs, hfil]
    · have hfil : monitors.filter (fun m => attempt m = .ok) ≠ [] := by simpa using hs
      simp [hm, hs, hfil]

end EaseView
